import Mathlib

/-!
Shallow embedding of `src/main.py` (a coordinator-to-executor delegation
client built on an A2A transport) and proofs about its behaviour.

Modelling conventions:
* `uuid4()` is modelled as drawing from a fresh-counter generator of type
  `Nat`: each draw returns the current counter and advances it, so distinct
  draws yield distinct tokens.  Both `uuid4().hex` (message ids) and
  `str(uuid4())` (session ids) are modelled this way.
* Network effects are modelled by a `Transport` record supplied as data:
  the agent-card fetch and the event stream of `client.send_message` are
  each either an error (the exception httpx / a2a would raise: discovery
  failure, timeout, connection failure) or a value.  The requests a call
  issues are recorded in the outcome, each with the session-id header the
  httpx client attaches (lines 37-38 of the source set the header on the
  client used for both the card fetch and the dispatch).
* Python exceptions that propagate are modelled with `Except`: a function
  that raises returns `Except.error`.
* `coordinator_agent` is an external LLM call; it is modelled as an
  arbitrary function `String → String` mapping the prompt to
  `str(response.message)`.  Likewise `jwt.decode(tok, verify_signature :=
  false)` is an external library call, modelled as a function from the
  token to either a decode error or the value of the decoded payload's
  `scope` claim (the only field the source reads).
* An opaque transport event (neither a `Message` nor a 2-tuple) is
  modelled by the string `str(event)` would produce, since that string is
  the only thing the source ever uses of it.
-/

namespace ChatAgent

inductive Role
  | user
  | agent
deriving DecidableEq

/-- A content part of an a2a `Message`.  `textPart` models a part `p` for
which `hasattr(p, "content") and hasattr(p.content, "text")` holds, carrying
its `kind` and `text`; `otherPart` models any part failing that probe. -/
inductive Part
  | textPart (kind : String) (text : String)
  | otherPart
deriving DecidableEq

/-- The a2a `Message` record as the source constructs and consumes it. -/
structure Message where
  kind : String
  role : Role
  parts : List Part
  message_id : Nat
deriving DecidableEq

/-- An a2a `Task`; the source only ever logs it or applies `str`, so the
model keeps just its string representation. -/
structure Task where
  str : String
deriving DecidableEq

/-- An a2a update record paired with a `Task`; only logged by the source. -/
structure UpdateEvent where
  str : String
deriving DecidableEq

/-- One event yielded by `client.send_message`: a `Message`, a two-element
`(task, update_event)` tuple, or anything else (kept as `str(event)`). -/
inductive Event
  | message (m : Message)
  | pair (task : Task) (update : Option UpdateEvent)
  | other (str : String)
deriving DecidableEq

/-- The exceptions the transport layer can raise inside
`send_sync_message`: agent-card fetch/parse failure, httpx timeout, and
connection-level failure. -/
inductive A2AError
  | discovery (info : String)
  | timeout
  | transportFail (info : String)
deriving DecidableEq

/-- The agent card returned by `A2ACardResolver.get_agent_card`; its fields
beyond existence are irrelevant to the source's control flow. -/
structure AgentCard where
  name : String
deriving DecidableEq

/-- The behaviour of the remote endpoint for one call: the result of the
agent-card fetch, and the result of dispatching (the event stream, or the
exception raised while dispatching/streaming). -/
structure Transport where
  agent_card : Except A2AError AgentCard
  events : Except A2AError (List Event)

/-- `create_message` (source lines 20-26): builds the outbound `Message`
with kind `"message"`, the given role (default `user`), a single text part
holding the input text, and a freshly drawn `uuid4().hex` identifier. -/
def create_message (g : Nat) (text : String) (role : Role := Role.user) :
    Message × Nat :=
  ({ kind := "message"
     role := role
     parts := [Part.textPart "text" text]
     message_id := g }, g + 1)

/-- The spec's `ResponseEvent`: the three-way classification of a transport
event performed inline at source lines 57-71. -/
inductive ResponseEvent
  | FinalMessage (m : Message)
  | TaskUpdate (task : Task) (update : Option UpdateEvent)
  | Opaque (raw : String)
deriving DecidableEq

/-- The classification performed by the `isinstance` chain at source lines
58-68, applied to each event in order: a `Message` is final; otherwise a
two-element tuple is a task update (its optional update preserved);
otherwise the event is opaque and kept as-is. -/
def classify : Event → ResponseEvent
  | Event.message m => ResponseEvent.FinalMessage m
  | Event.pair t u => ResponseEvent.TaskUpdate t u
  | Event.other s => ResponseEvent.Opaque s

/-- What `send_sync_message` returns to `invoke`: the `Message` event
itself, the `task` component of a tuple event, the raw opaque event, or
Python `None` when the stream yields no event at all. -/
inductive SyncResult
  | msg (m : Message)
  | task (t : Task)
  | raw (s : String)
  | noneResult
deriving DecidableEq

/-- The value the `return` statement at lines 60 / 67 / 71 produces for a
classified event. -/
def sync_return : ResponseEvent → SyncResult
  | ResponseEvent.FinalMessage m => SyncResult.msg m
  | ResponseEvent.TaskUpdate t _ => SyncResult.task t
  | ResponseEvent.Opaque s => SyncResult.raw s

/-- The `async for` loop at lines 57-71 returns on the first event; an
exhausted stream falls off the end of the function, returning `None`. -/
def first_event_result : List Event → SyncResult
  | [] => SyncResult.noneResult
  | e :: _ => sync_return (classify e)

/-- The kind of one outbound HTTP request: the agent-card fetch, or the
message dispatch carrying the outbound `Message`. -/
inductive ReqKind
  | card
  | dispatch (msg : Message)
deriving DecidableEq

/-- One outbound HTTP request together with the
`X-Amzn-Bedrock-AgentCore-Runtime-Session-Id` header value the shared
httpx client attaches to it. -/
structure Request where
  session_header : Nat
  kind : ReqKind
deriving DecidableEq

def Request.isDispatch : Request → Bool
  | ⟨_, ReqKind.dispatch _⟩ => true
  | ⟨_, ReqKind.card⟩ => false

/-- Number of message-dispatch requests among the recorded requests. -/
def dispatch_count (reqs : List Request) : Nat :=
  (reqs.filter Request.isDispatch).length

/-- The observable outcome of one `send_sync_message` call: its return
value or the exception it raises, the session id it generated, the
requests it issued, and the generator state after the call. -/
structure SyncOutcome where
  result : Except A2AError SyncResult
  session_id : Nat
  requests : List Request
  gen : Nat

/-- `send_sync_message` (source lines 28-71): generate a session id,
attach it as a header on the shared httpx client, fetch the agent card
(raising on failure, before any dispatch), build the outbound message with
`create_message`, dispatch it, and return the first event's value per the
classification above. -/
def send_sync_message (tr : Transport) (g : Nat) (message : String) :
    SyncOutcome :=
  let session_id := g
  let g1 := g + 1
  let cardReq : Request := ⟨session_id, ReqKind.card⟩
  match tr.agent_card with
  | Except.error e =>
      { result := Except.error e
        session_id := session_id
        requests := [cardReq]
        gen := g1 }
  | Except.ok _card =>
      let mp := create_message g1 message
      let sendReq : Request := ⟨session_id, ReqKind.dispatch mp.1⟩
      match tr.events with
      | Except.error e =>
          { result := Except.error e
            session_id := session_id
            requests := [cardReq, sendReq]
            gen := mp.2 }
      | Except.ok evs =>
          { result := Except.ok (first_event_result evs)
            session_id := session_id
            requests := [cardReq, sendReq]
            gen := mp.2 }

/-- Lowercasing as Python's `str.lower` acts on the source's ASCII
keywords, applied per character. -/
def py_lower (s : String) : String := String.mk (s.data.map Char.toLower)

/-- Whether `needle` occurs as a contiguous substring of `hay`, i.e.
Python's `needle in hay` on strings, on the underlying character lists. -/
def str_contains_aux (needle : List Char) : List Char → Bool
  | [] => needle.isPrefixOf []
  | c :: rest => needle.isPrefixOf (c :: rest) || str_contains_aux needle rest

def str_contains (hay needle : String) : Bool :=
  str_contains_aux needle.data hay.data

/-- `extract_operation_type` (source lines 74-85): lowercase the message,
then test the keyword groups in order and return the first group with a
keyword occurring in the message, else `"unknown"`. -/
def extract_operation_type (user_message : String) : String :=
  let message_lower := py_lower user_message
  if ["delete", "remove", "deactivate"].any
       (fun w => str_contains message_lower w) then "delete"
  else if ["create", "add", "new"].any
       (fun w => str_contains message_lower w) then "create"
  else if ["update", "modify", "change", "edit"].any
       (fun w => str_contains message_lower w) then "update"
  else if ["read", "get", "fetch", "show", "list"].any
       (fun w => str_contains message_lower w) then "read"
  else "unknown"

/-- The value of the `scope` claim in the decoded JWT payload, as
`decoded.get('scope', '')` at line 172 sees it: absent (defaulting to the
empty string), a string, a list, or some other JSON type. -/
inductive ScopeClaim
  | missing
  | strClaim (s : String)
  | listClaim (l : List String)
  | otherClaim
deriving DecidableEq

/-- Python's `str.split()` with no arguments: split on runs of whitespace,
discarding empty chunks. -/
def py_split_aux : List Char → List Char → List String
  | [], acc => if acc.isEmpty then [] else [String.mk acc.reverse]
  | c :: cs, acc =>
      if c.isWhitespace then
        if acc.isEmpty then py_split_aux cs []
        else String.mk acc.reverse :: py_split_aux cs []
      else py_split_aux cs (c :: acc)

def py_str_split (s : String) : List String := py_split_aux s.data []

/-- Lines 172-178: normalise the decoded `scope` claim to a list —
a string (including the absent-claim default) is whitespace-split, a list
is kept, anything else becomes the empty list. -/
def scope_list_of : ScopeClaim → List String
  | ScopeClaim.missing => py_str_split ""
  | ScopeClaim.strClaim s => py_str_split s
  | ScopeClaim.listClaim l => l
  | ScopeClaim.otherClaim => []

/-- Extraction at lines 205-208 / 222-225: the text of the first part that
passes the `hasattr` probes, or the empty string. -/
def part_text : Part → Option String
  | Part.textPart _ t => Option.some t
  | Part.otherPart => Option.none

def extract_text (parts : List Part) : String :=
  (parts.findSome? part_text).getD ""

/-- The `"response"` string `invoke` builds from `send_sync_message`'s
return value (lines 204-211 / 221-228): first text part of a `Message`,
else `str(result)` — the task's representation, the opaque event's
representation, or `"None"` for Python `None`. -/
def result_text : SyncResult → String
  | SyncResult.msg m => extract_text m.parts
  | SyncResult.task t => t.str
  | SyncResult.raw s => s
  | SyncResult.noneResult => "None"

/-- An exception propagating out of `invoke`: `jwt.DecodeError` from line
171, `AttributeError` from `.lower()` on a missing prompt, or a transport
exception re-raised by `asyncio.run(send_sync_message(...))`. -/
inductive PyError
  | jwtDecodeError
  | attributeError
  | a2a (e : A2AError)
deriving DecidableEq

/-- The JSON payload handed to the entrypoint; `payload.get` yields `none`
for a missing key. -/
structure Payload where
  prompt : Option String
  accessToken : Option String

/-- The external collaborators `invoke` calls out to: the coordinator LLM
(prompt to `str(response.message)`), `jwt.decode` without signature
verification (token to its `scope` claim or a decode error), and the
remote transport used by `send_sync_message`. -/
structure InvokeEnv where
  coord : String → String
  jwtDecode : String → Except Unit ScopeClaim
  transport : Transport

/-- The literal prompt sent to the coordinator at line 145 when the
payload carries no access token. -/
def auth_url_prompt : String :=
  "The user does not have access token, response to the user with this URL https://example.com indicating to click on it to initiate authentication"

/-- The literal prompt sent to the coordinator at line 213 when a delete
operation lacks the delete scope. -/
def step_up_prompt : String :=
  "The user does not have the delete scope, response to the user with this URL https://example.com to perform step-up authorization"

/-- Python truthiness test `if not access_token` at line 144: missing key
or empty string. -/
def token_falsy : Option String → Bool
  | Option.none => true
  | Option.some s => s == ""

/-- The observable outcome of one `invoke` call: the `"response"` value or
the exception raised, how many times `send_sync_message` was entered, the
HTTP requests issued, and the generator state afterwards. -/
structure InvokeOutcome where
  result : Except PyError String
  send_sync_calls : Nat
  requests : List Request
  gen : Nat

/-- The dispatch-and-extract block shared by lines 190-211 and 216-228:
run the coordinator on the user message, send its reply through
`send_sync_message`, and convert the result to response text (re-raising
any transport exception). -/
def dispatch_block (env : InvokeEnv) (g : Nat) (user_message : String) :
    InvokeOutcome :=
  let task := env.coord user_message
  let out := send_sync_message env.transport g task
  { result :=
      match out.result with
      | Except.error e => Except.error (PyError.a2a e)
      | Except.ok r => Except.ok (result_text r)
    send_sync_calls := 1
    requests := out.requests
    gen := out.gen }

/-- `invoke` (source lines 135-228): the entrypoint.  A falsy access token
short-circuits to an authentication prompt; otherwise the token is decoded
(line 171, raising on malformed tokens), its scope claim normalised, the
operation classified from the prompt, and delete operations are dispatched
only when `"delete"` occurs in the scope list — otherwise a step-up prompt
is returned without any dispatch.  Non-delete operations dispatch
unconditionally. -/
def invoke (env : InvokeEnv) (g : Nat) (payload : Payload) : InvokeOutcome :=
  if token_falsy payload.accessToken then
    { result := Except.ok (env.coord auth_url_prompt)
      send_sync_calls := 0
      requests := []
      gen := g }
  else
    let access_token := payload.accessToken.getD ""
    match env.jwtDecode access_token with
    | Except.error _ =>
        { result := Except.error PyError.jwtDecodeError
          send_sync_calls := 0
          requests := []
          gen := g }
    | Except.ok claim =>
        let scope_list := scope_list_of claim
        match payload.prompt with
        | Option.none =>
            { result := Except.error PyError.attributeError
              send_sync_calls := 0
              requests := []
              gen := g }
        | Option.some user_message =>
            if extract_operation_type user_message = "delete" then
              if scope_list.contains "delete" then
                dispatch_block env g user_message
              else
                { result := Except.ok (env.coord step_up_prompt)
                  send_sync_calls := 0
                  requests := []
                  gen := g }
            else
              dispatch_block env g user_message

/-- Every request of a sync call carries the session id as its header. -/
def all_headers_eq (o : SyncOutcome) : Bool :=
  o.requests.all fun r => r.session_header == o.session_id

def is_message_event : Event → Bool
  | Event.message _ => true
  | Event.pair _ _ => false
  | Event.other _ => false

def is_pair_event : Event → Bool
  | Event.message _ => false
  | Event.pair _ _ => true
  | Event.other _ => false

/-- Restatement of claim C10 in its own words, for comparison with the
source definition `extract_operation_type`: the keyword groups in their
fixed order. -/
def keyword_groups : List (String × List String) :=
  [("delete", ["delete", "remove", "deactivate"]),
   ("create", ["create", "add", "new"]),
   ("update", ["update", "modify", "change", "edit"]),
   ("read", ["read", "get", "fetch", "show", "list"])]

/-- Restatement of claim C10 in its own words: scan the groups in order
and return the label of the first group one of whose keywords occurs
(case-insensitively) in the message, else "unknown". -/
def classify_by_groups (s : String) : String :=
  match keyword_groups.find?
      (fun gp => gp.2.any fun w => str_contains (py_lower s) w) with
  | Option.some gp => gp.1
  | Option.none => "unknown"

/- Concrete sample inputs used by counterexamples and witnesses. -/

def sample_card : AgentCard := ⟨"action agent"⟩

def message_42 : Message :=
  { kind := "message"
    role := Role.user
    parts := [Part.textPart "text" "42"]
    message_id := 7 }

def payload_hi : Payload :=
  { prompt := Option.some "hi there", accessToken := Option.some "token-abc" }

def payload_no_token : Payload :=
  { prompt := Option.some "hello", accessToken := Option.none }

def payload_delete : Payload :=
  { prompt := Option.some "delete user bob", accessToken := Option.some "tok-xyz" }

def env_final_42 : InvokeEnv :=
  { coord := fun s => s
    jwtDecode := fun _ => Except.ok ScopeClaim.missing
    transport := { agent_card := Except.ok sample_card
                   events := Except.ok [Event.message message_42] } }

def env_discovery_fail : InvokeEnv :=
  { coord := fun s => s
    jwtDecode := fun _ => Except.ok (ScopeClaim.strClaim "openid profile")
    transport := { agent_card := Except.error (A2AError.discovery "card fetch failed")
                   events := Except.ok [] } }

def env_dispatch_timeout : InvokeEnv :=
  { coord := fun s => s
    jwtDecode := fun _ => Except.ok (ScopeClaim.strClaim "openid profile")
    transport := { agent_card := Except.ok sample_card
                   events := Except.error A2AError.timeout } }

def env_opaque_empty : InvokeEnv :=
  { coord := fun s => s
    jwtDecode := fun _ => Except.ok (ScopeClaim.strClaim "openid")
    transport := { agent_card := Except.ok sample_card
                   events := Except.ok [Event.other ""] } }

def env_opaque_repr : InvokeEnv :=
  { coord := fun s => s
    jwtDecode := fun _ => Except.ok (ScopeClaim.strClaim "openid")
    transport := { agent_card := Except.ok sample_card
                   events := Except.ok [Event.other "RawEvent(foo=bar)"] } }

def env_no_delete_scope : InvokeEnv :=
  { coord := fun s => s
    jwtDecode := fun _ => Except.ok (ScopeClaim.strClaim "openid profile")
    transport := { agent_card := Except.ok sample_card
                   events := Except.ok [] } }

def transport_bad_card : Transport :=
  { agent_card := Except.error (A2AError.discovery "boom")
    events := Except.ok [] }

/- Helper lemmas shared by the claim theorems. -/

theorem send_sync_session_id (tr : Transport) (g : Nat) (m : String) :
    (send_sync_message tr g m).session_id = g := by
  cases hc : tr.agent_card <;> cases he : tr.events <;>
    simp [send_sync_message, hc, he]

theorem send_sync_gen_gt (tr : Transport) (g : Nat) (m : String) :
    g < (send_sync_message tr g m).gen := by
  cases hc : tr.agent_card <;> cases he : tr.events <;>
    simp [send_sync_message, hc, he, create_message] <;> omega

theorem token_falsy_of_some (tok : String) (hne : tok ≠ "") :
    token_falsy (Option.some tok) = false := by
  simp [token_falsy, hne]

/-- Claim C1: when the transport yields exactly one final `Message` event,
the sync call returns that message's extracted text — the text of its
first text part, or the empty string when the message carries no text
part.  Stated on the entrypoint `invoke` along a path that dispatches. -/
theorem sync_single_message_text (env : InvokeEnv) (g : Nat) (p : Payload)
    (tok um : String) (claim : ScopeClaim) (card : AgentCard) (m : Message)
    (htok : p.accessToken = Option.some tok)
    (hne : tok ≠ "")
    (hdec : env.jwtDecode tok = Except.ok claim)
    (hum : p.prompt = Option.some um)
    (hop : extract_operation_type um ≠ "delete")
    (hcard : env.transport.agent_card = Except.ok card)
    (hev : env.transport.events = Except.ok [Event.message m]) :
    (invoke env g p).result = Except.ok (extract_text m.parts)
  ∧ (∀ t, m.parts.findSome? part_text = Option.some t →
        (invoke env g p).result = Except.ok t)
  ∧ (m.parts.findSome? part_text = Option.none →
        (invoke env g p).result = Except.ok "") := by
  have hf : token_falsy (Option.some tok) = false :=
    token_falsy_of_some tok hne
  have hres : (invoke env g p).result = Except.ok (extract_text m.parts) := by
    simp [invoke, hf, htok, hdec, hum, hop, dispatch_block, send_sync_message,
          hcard, hev, first_event_result, classify, sync_return, result_text]
  refine ⟨hres, ?_, ?_⟩
  · intro t ht
    rw [hres]; simp [extract_text, ht]
  · intro ht
    rw [hres]; simp [extract_text, ht]

/-- Claim C1 witness: a transport yielding one final message with text
`"42"` makes the call return `"42"`. -/
theorem sync_single_message_text_witness :
    (invoke env_final_42 0 payload_hi).result = Except.ok "42" := by
  have h := sync_single_message_text env_final_42 0 payload_hi
      "token-abc" "hi there" ScopeClaim.missing sample_card message_42
      rfl (by decide) rfl rfl (by decide) rfl rfl
  exact h.2.1 "42" rfl

/-- Claim C2 counterexample: `invoke` has no exception handler, so a
discovery failure inside the delegation call propagates out of `invoke`
as the underlying error instead of being returned as a descriptive
failure string. -/
theorem invoke_propagates_discovery_error :
    (invoke env_discovery_fail 0 payload_hi).result
      = Except.error (PyError.a2a (A2AError.discovery "card fetch failed")) := by
  rfl

/-- Claim C2 amended: failures arising inside a delegation call
(discovery failure, timeout, or transport failure) propagate out of the
entrypoint `invoke` as the underlying error; `invoke` does not catch them
and does not return a failure string. -/
theorem invoke_error_propagation (env : InvokeEnv) (g : Nat) (p : Payload)
    (tok um : String) (claim : ScopeClaim) (e : A2AError)
    (htok : p.accessToken = Option.some tok)
    (hne : tok ≠ "")
    (hdec : env.jwtDecode tok = Except.ok claim)
    (hum : p.prompt = Option.some um)
    (hop : extract_operation_type um ≠ "delete")
    (hfail : env.transport.agent_card = Except.error e
        ∨ ∃ card, env.transport.agent_card = Except.ok card
            ∧ env.transport.events = Except.error e) :
    (invoke env g p).result = Except.error (PyError.a2a e) := by
  have hf : token_falsy (Option.some tok) = false :=
    token_falsy_of_some tok hne
  rcases hfail with hcard | ⟨card, hcard, hev⟩
  · simp [invoke, hf, htok, hdec, hum, hop, dispatch_block,
          send_sync_message, hcard]
  · simp [invoke, hf, htok, hdec, hum, hop, dispatch_block,
          send_sync_message, hcard, hev]

/-- Claim C2 amended, witness: a timeout while dispatching propagates out
of `invoke` as the timeout error. -/
theorem invoke_error_propagation_witness :
    (invoke env_dispatch_timeout 0 payload_hi).result
      = Except.error (PyError.a2a A2AError.timeout) :=
  invoke_error_propagation env_dispatch_timeout 0 payload_hi
    "token-abc" "hi there" (ScopeClaim.strClaim "openid profile")
    A2AError.timeout rfl (by decide) rfl rfl (by decide)
    (Or.inr ⟨sample_card, rfl, rfl⟩)

/-- Claim C3: classification applies the three rules in order and exactly
one branch applies to every event — a complete `Message` record becomes
`FinalMessage`; otherwise a two-element (task, update) tuple becomes
`TaskUpdate` with the optional update preserved; otherwise the event
becomes `Opaque`, preserved as-is. -/
theorem classification_rules_in_order (e : Event) :
    (is_message_event e = true
       ∧ ∃ m, e = Event.message m ∧ classify e = ResponseEvent.FinalMessage m)
  ∨ (is_message_event e = false ∧ is_pair_event e = true
       ∧ ∃ t u, e = Event.pair t u ∧ classify e = ResponseEvent.TaskUpdate t u)
  ∨ (is_message_event e = false ∧ is_pair_event e = false
       ∧ ∃ s, e = Event.other s ∧ classify e = ResponseEvent.Opaque s) := by
  cases e <;> simp [is_message_event, is_pair_event, classify]

/-- Claim C4: when the agent-card fetch fails, no dispatch request is
issued and the discovery failure is surfaced to the caller as the result
of the call. -/
theorem discovery_failure_short_circuits (tr : Transport) (g : Nat)
    (task : String) (e : A2AError) (h : tr.agent_card = Except.error e) :
    dispatch_count (send_sync_message tr g task).requests = 0
  ∧ (send_sync_message tr g task).result = Except.error e := by
  constructor <;>
    simp [send_sync_message, h, dispatch_count, Request.isDispatch]

/-- Claim C4 witness: a concrete failing card fetch issues no dispatch. -/
theorem discovery_failure_short_circuits_witness :
    dispatch_count (send_sync_message transport_bad_card 5 "do it").requests = 0
  ∧ (send_sync_message transport_bad_card 5 "do it").result
      = Except.error (A2AError.discovery "boom") :=
  discovery_failure_short_circuits transport_bad_card 5 "do it"
    (A2AError.discovery "boom") rfl

/-- Claim C5: every sync call draws a fresh session identifier and the
shared client attaches it as a header on every request of that call; two
calls (the second starting from the generator state the first left)
receive distinct session identifiers. -/
theorem session_ids_fresh_and_attached
    (tr1 tr2 : Transport) (g : Nat) (m1 m2 : String) :
    all_headers_eq (send_sync_message tr1 g m1) = true
  ∧ all_headers_eq
      (send_sync_message tr2 (send_sync_message tr1 g m1).gen m2) = true
  ∧ (send_sync_message tr1 g m1).session_id
      ≠ (send_sync_message tr2 (send_sync_message tr1 g m1).gen m2).session_id := by
  refine ⟨?_, ?_, ?_⟩
  · cases hc : tr1.agent_card <;> cases he : tr1.events <;>
      simp [send_sync_message, hc, he, all_headers_eq]
  · cases hc : tr2.agent_card <;> cases he : tr2.events <;>
      simp [send_sync_message, hc, he, all_headers_eq]
  · rw [send_sync_session_id tr1, send_sync_session_id tr2]
    have h := send_sync_gen_gt tr1 g m1
    omega

/-- Claim C6: message construction yields kind `"message"`, role `user`,
exactly one content part — a text part carrying the input text — and a
freshly drawn identifier; two consecutive constructions receive distinct
identifiers. -/
theorem create_message_shape_and_fresh_ids (g : Nat) (t1 t2 : String) :
    (create_message g t1).1.kind = "message"
  ∧ (create_message g t1).1.role = Role.user
  ∧ (create_message g t1).1.parts = [Part.textPart "text" t1]
  ∧ (create_message ((create_message g t1).2) t2).1.message_id
      ≠ (create_message g t1).1.message_id := by
  refine ⟨rfl, rfl, rfl, ?_⟩
  simp only [create_message]
  omega

/-- Claim C7 counterexample: an opaque event whose string representation
is empty (for instance, the event is itself the empty string — not a
`Message`, not a tuple) makes the call return the empty string, refuting
the part of the claim saying the representation is never empty. -/
theorem opaque_empty_repr_gives_empty :
    (invoke env_opaque_empty 0 payload_hi).result = Except.ok "" := by
  rfl

/-- Claim C7 amended: for every event matching neither the final-message
shape nor the (task, update) pair shape, the call's text result is that
event's string representation; it is non-empty exactly when that
representation is non-empty (the code does not itself guarantee
non-emptiness). -/
theorem opaque_event_yields_repr (env : InvokeEnv) (g : Nat) (p : Payload)
    (tok um r : String) (claim : ScopeClaim) (card : AgentCard)
    (htok : p.accessToken = Option.some tok)
    (hne : tok ≠ "")
    (hdec : env.jwtDecode tok = Except.ok claim)
    (hum : p.prompt = Option.some um)
    (hop : extract_operation_type um ≠ "delete")
    (hcard : env.transport.agent_card = Except.ok card)
    (hev : env.transport.events = Except.ok [Event.other r]) :
    (invoke env g p).result = Except.ok r
  ∧ (r ≠ "" → (invoke env g p).result ≠ Except.ok "") := by
  have hf : token_falsy (Option.some tok) = false :=
    token_falsy_of_some tok hne
  have hres : (invoke env g p).result = Except.ok r := by
    simp [invoke, hf, htok, hdec, hum, hop, dispatch_block, send_sync_message,
          hcard, hev, first_event_result, classify, sync_return, result_text]
  refine ⟨hres, fun hr hcon => hr ?_⟩
  rw [hres] at hcon
  simpa using hcon

/-- Claim C7 amended, witness: an unrecognized event with a non-empty
representation yields exactly that representation. -/
theorem opaque_event_yields_repr_witness :
    (invoke env_opaque_repr 0 payload_hi).result = Except.ok "RawEvent(foo=bar)"
  ∧ (invoke env_opaque_repr 0 payload_hi).result ≠ Except.ok "" := by
  have h := opaque_event_yields_repr env_opaque_repr 0 payload_hi
      "token-abc" "hi there" "RawEvent(foo=bar)"
      (ScopeClaim.strClaim "openid") sample_card
      rfl (by decide) rfl rfl (by decide) rfl rfl
  exact ⟨h.1, h.2 (by decide)⟩

/-- Claim C8: for a user message classified as a delete operation whose
token's scope list (decoded without signature verification) does not
contain `"delete"`, the entrypoint never enters `send_sync_message`,
issues no dispatch, and returns the coordinator's step-up-authorization
response. -/
theorem delete_without_scope_no_dispatch (env : InvokeEnv) (g : Nat)
    (p : Payload) (tok um : String) (claim : ScopeClaim)
    (htok : p.accessToken = Option.some tok)
    (hne : tok ≠ "")
    (hdec : env.jwtDecode tok = Except.ok claim)
    (hum : p.prompt = Option.some um)
    (hop : extract_operation_type um = "delete")
    (hscope : (scope_list_of claim).contains "delete" = false) :
    (invoke env g p).send_sync_calls = 0
  ∧ dispatch_count (invoke env g p).requests = 0
  ∧ (invoke env g p).result = Except.ok (env.coord step_up_prompt) := by
  have hf : token_falsy (Option.some tok) = false :=
    token_falsy_of_some tok hne
  have hs : "delete" ∉ scope_list_of claim := by
    simpa using hscope
  refine ⟨?_, ?_, ?_⟩ <;>
    simp [invoke, hf, htok, hdec, hum, hop, hs, dispatch_count]

/-- Claim C8 witness: a delete request with a token lacking the delete
scope is answered with the step-up prompt and no dispatch. -/
theorem delete_without_scope_no_dispatch_witness :
    (invoke env_no_delete_scope 3 payload_delete).send_sync_calls = 0
  ∧ dispatch_count (invoke env_no_delete_scope 3 payload_delete).requests = 0
  ∧ (invoke env_no_delete_scope 3 payload_delete).result
      = Except.ok step_up_prompt :=
  delete_without_scope_no_dispatch env_no_delete_scope 3 payload_delete
    "tok-xyz" "delete user bob" (ScopeClaim.strClaim "openid profile")
    rfl (by decide) rfl rfl (by decide) (by decide)

/-- Claim C9: a missing or falsy access token makes the entrypoint return
the coordinator's authentication-prompt response and perform no remote
dispatch: `send_sync_message` is never entered. -/
theorem missing_token_auth_prompt (env : InvokeEnv) (g : Nat) (p : Payload)
    (h : token_falsy p.accessToken = true) :
    (invoke env g p).result = Except.ok (env.coord auth_url_prompt)
  ∧ (invoke env g p).send_sync_calls = 0
  ∧ dispatch_count (invoke env g p).requests = 0 := by
  refine ⟨?_, ?_, ?_⟩ <;> simp [invoke, h, dispatch_count]

/-- Claim C9 witness: a payload with no access token gets the
authentication prompt and no dispatch. -/
theorem missing_token_auth_prompt_witness :
    (invoke env_final_42 0 payload_no_token).result = Except.ok auth_url_prompt
  ∧ (invoke env_final_42 0 payload_no_token).send_sync_calls = 0
  ∧ dispatch_count (invoke env_final_42 0 payload_no_token).requests = 0 :=
  missing_token_auth_prompt env_final_42 0 payload_no_token rfl

/-- Claim C10: operation classification agrees with scanning the keyword
groups delete, create, update, read in that fixed order with
case-insensitive substring matching and returning the first matching
group (else "unknown"); in particular a message containing both a delete
keyword and a create keyword classifies as delete. -/
theorem operation_groups_in_order (s : String) :
    extract_operation_type s = classify_by_groups s
  ∧ extract_operation_type "please Delete it and create a replacement"
      = "delete" := by
  constructor
  · cases h1 : ["delete", "remove", "deactivate"].any
        (fun w => str_contains (py_lower s) w) <;>
    cases h2 : ["create", "add", "new"].any
        (fun w => str_contains (py_lower s) w) <;>
    cases h3 : ["update", "modify", "change", "edit"].any
        (fun w => str_contains (py_lower s) w) <;>
    cases h4 : ["read", "get", "fetch", "show", "list"].any
        (fun w => str_contains (py_lower s) w) <;>
    simp [extract_operation_type, classify_by_groups, keyword_groups,
          List.find?, h1, h2, h3, h4]
  · decide

end ChatAgent
